import Mathlib

/-!
Shallow embedding of the Tatt-E API types and of the `TattooRep` helper class
(`src/Tatt-E/tatte.h`, `src/tatte.cpp`).

Modelling conventions:
* `uint16_t` / `uint64_t` fields are `Nat`; where a C++ expression can
  overflow its machine type, the reduction is made explicit.
* `double` fields (`confidence`, `similarityScore`) are modelled as `Rat`:
  the code only stores and compares them, never computes with them, so any
  linearly ordered type containing the literals that appear suffices.
* heap allocation (`new uint8_t[size]`) is modelled by threading a counter of
  allocation identifiers: an allocation is a `Buffer` carrying the identifier
  it was given and its byte size.  A fresh allocation takes the current
  counter value, which differs from the identifier of every earlier
  allocation.
* `std::shared_ptr<uint8_t>` is `Option Buffer` (`none` is the null handle).
-/

namespace TattE

/-- Labels describing the image type (`enum class ImageType`). -/
inductive ImageType where
  | Tattoo
  | Sketch
  | Unknown
deriving DecidableEq, Repr

/-- Model of one heap allocation: the identifier the allocator gave it and
its size in bytes.  Two allocations with distinct identifiers are distinct
memory regions. -/
structure Buffer where
  id : Nat
  size : Nat
deriving DecidableEq, Repr

/-- Struct representing a single image (`struct Image`).  The `width`,
`height` and `depth` fields are `uint16_t` in the source. -/
structure Image where
  width : Nat
  height : Nat
  depth : Nat
  imageType : ImageType
  data : Option Buffer
deriving Repr

/-- Default constructor `Image()`: zero extent, depth 24, unknown type,
null data handle. -/
def Image.mkDefault : Image :=
  { width := 0, height := 0, depth := 24, imageType := ImageType.Unknown,
    data := none }

/-- Five-argument constructor `Image(widthin, heightin, depthin, typein,
datain)`.  The `depthin` parameter is declared `uint8_t` in the source, so
the value received is reduced modulo 2^8; the `uint16_t` parameters are
reduced modulo 2^16.  Each field is stored verbatim from the parameter. -/
def Image.mk5 (widthin heightin depthin : Nat) (typein : ImageType)
    (datain : Option Buffer) : Image :=
  { width := widthin % 2 ^ 16, height := heightin % 2 ^ 16,
    depth := depthin % 2 ^ 8, imageType := typein, data := datain }

/-- Smallest value of a 32-bit signed `int`. -/
def int32Min : Int := -(2 ^ 31)

/-- Largest value of a 32-bit signed `int`. -/
def int32Max : Int := 2 ^ 31 - 1

/-- Signed 32-bit `int` multiplication: the mathematical product when it is
representable, `none` when it overflows (signed overflow is undefined
behaviour in C++). -/
def mulInt32 (a b : Int) : Option Int :=
  if int32Min ≤ a * b ∧ a * b ≤ int32Max then some (a * b) else none

/-- Member function `Image::size()`, which returns
`width * height * (depth / 8)`.  The `uint16_t` operands undergo integral
promotion to (32-bit signed) `int`, so each multiplication is an `int`
multiplication that can overflow; the division `depth / 8` is exact integer
division and cannot overflow.  The final `int` result is converted to
`size_t`; on the non-overflowing path it is non-negative, so the conversion
is the identity. -/
def Image.size (img : Image) : Option Nat := do
  let p1 ← mulInt32 (img.width : Int) (img.height : Int)
  let p2 ← mulInt32 p1 ((img.depth : Int) / 8)
  pure p2.toNat

/-- Structure for a bounding box around a detected tattoo
(`struct BoundingBox`).  Coordinate fields are `uint16_t`; `confidence` is a
`double`. -/
structure BoundingBox where
  x : Nat
  y : Nat
  width : Nat
  height : Nat
  confidence : Rat
deriving DecidableEq, Repr

/-- Default constructor `BoundingBox()`: all coordinates zero, confidence
`0.0`. -/
def BoundingBox.mkDefault : BoundingBox :=
  { x := 0, y := 0, width := 0, height := 0, confidence := 0 }

/-- Five-argument constructor `BoundingBox(xin, yin, widthin, heightin,
confin)`.  The `uint16_t` parameters are reduced modulo 2^16; `confin` is
stored verbatim into `confidence`. -/
def BoundingBox.mk5 (xin yin widthin heightin : Nat) (confin : Rat) :
    BoundingBox :=
  { x := xin % 2 ^ 16, y := yin % 2 ^ 16, width := widthin % 2 ^ 16,
    height := heightin % 2 ^ 16, confidence := confin }

/-- Class `TattooRep`: an owned template buffer with its size and a list of
bounding boxes. -/
structure TattooRep where
  tattooTemplate : Option Buffer
  templateSize : Nat
  boundingBoxes : List BoundingBox
deriving Repr

/-- Allocator state: the next unused allocation identifier. -/
abbrev Heap := Nat

/-- Default constructor `TattooRep()`: null template handle, size zero, and
a default-constructed (empty) bounding-box vector. -/
def TattooRep.init : TattooRep :=
  { tattooTemplate := none, templateSize := 0, boundingBoxes := [] }

/-- Member function `TattooRep::resizeTemplate(size)`.  If `size > 0` it
allocates a fresh `size`-byte buffer (the `shared_ptr::reset` releases any
previous buffer), records the size, and returns the new shared handle;
otherwise it nulls the handle, records size zero and returns the null
handle.  The result is (post-state, post-heap, returned handle). -/
def TattooRep.resizeTemplate (s : TattooRep) (h : Heap) (size : Nat) :
    TattooRep × Heap × Option Buffer :=
  if size > 0 then
    let data : Buffer := { id := h, size := size }
    let s' : TattooRep :=
      { s with tattooTemplate := some data, templateSize := size }
    (s', h + 1, s'.tattooTemplate)
  else
    let s' : TattooRep :=
      { s with tattooTemplate := none, templateSize := 0 }
    (s', h, s'.tattooTemplate)

/-- Member function `TattooRep::addBoundingBox(bb)`: `push_back` onto the
bounding-box vector. -/
def TattooRep.addBoundingBox (s : TattooRep) (bb : BoundingBox) :
    TattooRep :=
  { s with boundingBoxes := s.boundingBoxes ++ [bb] }

/-- Accessor `TattooRep::getTattooTemplatePtr()`. -/
def TattooRep.getTattooTemplatePtr (s : TattooRep) : Option Buffer :=
  s.tattooTemplate

/-- Accessor `TattooRep::getTemplateSize()`. -/
def TattooRep.getTemplateSize (s : TattooRep) : Nat :=
  s.templateSize

/-- Accessor `TattooRep::getBoundingBoxes()`. -/
def TattooRep.getBoundingBoxes (s : TattooRep) : List BoundingBox :=
  s.boundingBoxes

/-- Repeated `addBoundingBox` calls, in list order. -/
def TattooRep.addBoundingBoxes (s : TattooRep) (bbs : List BoundingBox) :
    TattooRep :=
  bbs.foldl TattooRep.addBoundingBox s

/-- Data structure for the result of an identification search
(`struct Candidate`). -/
structure Candidate where
  isAssigned : Bool
  templateId : String
  similarityScore : Rat
deriving DecidableEq, Repr

/-- Default constructor `Candidate()`: unassigned, empty identifier, score
`0.0`. -/
def Candidate.mkDefault : Candidate :=
  { isAssigned := false, templateId := "", similarityScore := 0 }

/-- Observable template state of a `TattooRep`: the reported template size,
whether the template handle is null, and the byte extent accessible through
the handle.  Allocation identifiers are not observable. -/
def templObs (s : TattooRep) : Nat × Bool × Option Nat :=
  (s.templateSize, s.tattooTemplate.isSome, s.tattooTemplate.map Buffer.size)

/-- Well-formedness of a `TattooRep` against the allocator: every buffer the
state holds was allocated earlier, i.e. its identifier is below the next
fresh identifier. -/
def TattooRep.WFHeap (s : TattooRep) (h : Heap) : Prop :=
  ∀ b : Buffer, s.tattooTemplate = some b → b.id < h

/-- One public mutating call on a `TattooRep`. -/
inductive Op where
  | addBB : BoundingBox → Op
  | resize : Nat → Op

/-- Effect of one call on the state and the allocator. -/
def stepOp : TattooRep × Heap → Op → TattooRep × Heap
  | (s, h), Op.addBB bb => (s.addBoundingBox bb, h)
  | (s, h), Op.resize n => ((s.resizeTemplate h n).1, (s.resizeTemplate h n).2.1)

/-- State reached from a default-constructed `TattooRep` by a sequence of
calls. -/
def runOps (ops : List Op) : TattooRep × Heap :=
  ops.foldl stepOp (TattooRep.init, 0)

/-- Invariant relating the reported template size and the nullness of the
template handle. -/
def templInv (s : TattooRep) : Prop :=
  0 < s.getTemplateSize ↔ s.getTattooTemplatePtr.isSome = true

/-- Contract of `IdentificationInterface::identifyTemplate`, formalised from
its documentation comment in `src/Tatt-E/tatte.h`: the function "outputs a
vector containing candidateListLength Candidates" and "the candidates shall
appear in descending order of similarity score - i.e. most similar entries
appear first".  Descending order is read minimally, as each adjacent pair
being non-increasing. -/
def IdentifyTemplateContract (candidateListLength : Nat)
    (candidateList : List Candidate) : Prop :=
  candidateList.length = candidateListLength ∧
  candidateList.Chain' (fun a b => b.similarityScore ≤ a.similarityScore)

end TattE

namespace TattE

/-- Helper: `addBoundingBoxes` appends the given list to the stored one. -/
theorem addBoundingBoxes_boundingBoxes (bbs : List BoundingBox)
    (s : TattooRep) :
    (s.addBoundingBoxes bbs).boundingBoxes = s.boundingBoxes ++ bbs := by
  induction bbs generalizing s with
  | nil => simp [TattooRep.addBoundingBoxes]
  | cons bb rest ih =>
      simp [TattooRep.addBoundingBoxes, List.foldl_cons] at *
      rw [ih]
      simp [TattooRep.addBoundingBox]

/-- C10: a default-constructed `Candidate` has `isAssigned == false`,
`templateId` the empty string, and `similarityScore == 0.0`. -/
theorem candidate_default_fields :
    Candidate.mkDefault.isAssigned = false ∧
    Candidate.mkDefault.templateId = "" ∧
    Candidate.mkDefault.similarityScore = 0 :=
  ⟨rfl, rfl, rfl⟩

/-- C2: appending bounding boxes `bb1, ..., bbk` via `addBoundingBox` to a
default-constructed `TattooRep` makes `getBoundingBoxes()` return exactly
that list, in call order. -/
theorem getBoundingBoxes_of_added (bbs : List BoundingBox) :
    (TattooRep.init.addBoundingBoxes bbs).getBoundingBoxes = bbs := by
  rw [TattooRep.getBoundingBoxes, addBoundingBoxes_boundingBoxes]
  simp [TattooRep.init]

/-- C1: `resizeTemplate(n)` on any state whose buffer was allocated earlier:
for `n > 0` the post-state reports size `n`, holds a non-null handle to a
fresh `n`-byte buffer distinct from any buffer the pre-state held, and the
returned handle equals `getTattooTemplatePtr()`; for `n = 0` the handle is
null, the size is zero, and the returned handle is null. -/
theorem resizeTemplate_spec (s : TattooRep) (h : Heap) (n : Nat)
    (hwf : s.WFHeap h) :
    (0 < n →
      (s.resizeTemplate h n).1.getTemplateSize = n ∧
      (s.resizeTemplate h n).1.getTattooTemplatePtr =
        some { id := h, size := n } ∧
      (∀ b : Buffer, s.tattooTemplate = some b →
        ({ id := h, size := n } : Buffer) ≠ b) ∧
      (s.resizeTemplate h n).2.2 =
        (s.resizeTemplate h n).1.getTattooTemplatePtr) ∧
    (n = 0 →
      (s.resizeTemplate h n).1.getTattooTemplatePtr = none ∧
      (s.resizeTemplate h n).1.getTemplateSize = 0 ∧
      (s.resizeTemplate h n).2.2 = none) := by
  constructor
  · intro hn
    rw [TattooRep.resizeTemplate, if_pos hn]
    refine ⟨rfl, rfl, ?_, rfl⟩
    intro b hb heq
    have hlt := hwf b hb
    rw [← heq] at hlt
    exact Nat.lt_irrefl h hlt
  · intro hn
    subst hn
    rw [TattooRep.resizeTemplate, if_neg (by decide)]
    exact ⟨rfl, rfl, rfl⟩

/-- Witness for `resizeTemplate_spec` at the default state, heap counter 0
and `n = 3`. -/
theorem resizeTemplate_spec_witness :
    (TattooRep.init.resizeTemplate 0 3).1.getTemplateSize = 3 ∧
    (TattooRep.init.resizeTemplate 0 3).1.getTattooTemplatePtr =
      some { id := 0, size := 3 } :=
  have hmain := resizeTemplate_spec TattooRep.init 0 3
    (fun b hb => Option.noConfusion hb)
  ⟨(hmain.1 (by decide)).1, (hmain.1 (by decide)).2.1⟩

/-- C4: for `n > 0`, calling `resizeTemplate(m)` then `resizeTemplate(n)`
leaves the same observable template state as calling `resizeTemplate(n)`
alone, and (when `m > 0`) the handle returned by the second call differs
from the handle returned by the first: the second call fully replaces the
first allocation. -/
theorem resize_resize_replaces (s : TattooRep) (h : Heap) (m n : Nat)
    (hn : 0 < n) :
    templObs ((s.resizeTemplate h m).1.resizeTemplate
        (s.resizeTemplate h m).2.1 n).1 =
      templObs (s.resizeTemplate h n).1 ∧
    (0 < m →
      ((s.resizeTemplate h m).1.resizeTemplate
          (s.resizeTemplate h m).2.1 n).2.2 ≠
        (s.resizeTemplate h m).2.2) := by
  by_cases hm : 0 < m
  · constructor
    · simp [TattooRep.resizeTemplate, hm, hn, templObs]
    · intro _ hcontra
      simp [TattooRep.resizeTemplate, hm, hn] at hcontra
  · constructor
    · simp [TattooRep.resizeTemplate, hm, hn, templObs]
    · intro hm' ; exact absurd hm' hm

/-- Witness for `resize_resize_replaces` at the default state, heap counter
0, `m = 2`, `n = 3`. -/
theorem resize_resize_replaces_witness :
    templObs ((TattooRep.init.resizeTemplate 0 2).1.resizeTemplate
        (TattooRep.init.resizeTemplate 0 2).2.1 3).1 =
      templObs (TattooRep.init.resizeTemplate 0 3).1 :=
  (resize_resize_replaces TattooRep.init 0 2 3 (by decide)).1

/-- Helper: one public call preserves the size/nullness invariant. -/
theorem templInv_step (s : TattooRep) (h : Heap) (op : Op)
    (hs : templInv s) : templInv (stepOp (s, h) op).1 := by
  cases op with
  | addBB bb =>
      simpa [stepOp, TattooRep.addBoundingBox, templInv,
        TattooRep.getTemplateSize, TattooRep.getTattooTemplatePtr] using hs
  | resize n =>
      by_cases hn : 0 < n <;>
        simp [stepOp, TattooRep.resizeTemplate, hn, templInv,
          TattooRep.getTemplateSize, TattooRep.getTattooTemplatePtr]

/-- Helper: the size/nullness invariant holds after any call sequence from
any state satisfying it. -/
theorem templInv_foldl (ops : List Op) (p : TattooRep × Heap)
    (hp : templInv p.1) : templInv (ops.foldl stepOp p).1 := by
  induction ops generalizing p with
  | nil => exact hp
  | cons op rest ih =>
      rw [List.foldl_cons]
      exact ih _ (by obtain ⟨s, h⟩ := p ; exact templInv_step s h op hp)

/-- C8: in every state reachable from the default constructor by
`addBoundingBox` and `resizeTemplate` calls, `getTemplateSize() > 0` iff
`getTattooTemplatePtr()` is non-null; and the default-constructed state has
a null template handle, template size zero and an empty bounding-box
list. -/
theorem reachable_templInv (ops : List Op) :
    (0 < (runOps ops).1.getTemplateSize ↔
      (runOps ops).1.getTattooTemplatePtr.isSome = true) ∧
    TattooRep.init.getTattooTemplatePtr = none ∧
    TattooRep.init.getTemplateSize = 0 ∧
    TattooRep.init.getBoundingBoxes = [] :=
  ⟨templInv_foldl ops (TattooRep.init, 0)
      (by simp [templInv, TattooRep.init, TattooRep.getTemplateSize,
        TattooRep.getTattooTemplatePtr]),
    rfl, rfl, rfl⟩

/-- C3 counterexample: at width 65535, height 65535, depth 24 the
promoted-to-`int` product `width * height` overflows a signed 32-bit `int`,
so `size()` does not return the mathematical product
`65535 * 65535 * (24 / 8)`. -/
theorem image_size_counterexample :
    Image.size ⟨65535, 65535, 24, ImageType.Unknown, none⟩ ≠
      some (65535 * 65535 * (24 / 8)) := by
  decide

/-- C3 amended: for representable (`uint16_t`) field values, `size()`
returns the mathematical product `width * height * (depth / 8)` whenever
the intermediate product `width * height` and the full product fit in a
signed 32-bit `int`; outside that range the `int` multiplication
overflows. -/
theorem image_size_eq_of_no_overflow (img : Image)
    (_hw : img.width < 2 ^ 16) (_hh : img.height < 2 ^ 16)
    (_hd : img.depth < 2 ^ 16)
    (h1 : (img.width : Int) * img.height ≤ int32Max)
    (h2 : (img.width : Int) * img.height * ((img.depth : Int) / 8) ≤
      int32Max) :
    img.size = some (img.width * img.height * (img.depth / 8)) := by
  have hnn1 : (0 : Int) ≤ (img.width : Int) * img.height :=
    mul_nonneg (Int.natCast_nonneg _) (Int.natCast_nonneg _)
  have hnn2 : (0 : Int) ≤
      (img.width : Int) * img.height * ((img.depth : Int) / 8) :=
    mul_nonneg hnn1 (Int.ediv_nonneg (Int.natCast_nonneg _) (by norm_num))
  have e1 : mulInt32 (img.width : Int) (img.height : Int) =
      some ((img.width : Int) * img.height) := by
    rw [mulInt32, if_pos]
    exact ⟨le_trans (by norm_num [int32Min]) hnn1, h1⟩
  have e2 : mulInt32 ((img.width : Int) * img.height)
      ((img.depth : Int) / 8) =
      some ((img.width : Int) * img.height * ((img.depth : Int) / 8)) := by
    rw [mulInt32, if_pos]
    exact ⟨le_trans (by norm_num [int32Min]) hnn2, h2⟩
  have key : (img.width : Int) * img.height * ((img.depth : Int) / 8) =
      ((img.width * img.height * (img.depth / 8) : Nat) : Int) := by
    push_cast
    ring
  rw [Image.size, e1]
  simp only [Option.bind_eq_bind, Option.some_bind]
  rw [e2]
  simp only [Option.some_bind, pure]
  rw [key, Int.toNat_natCast]

/-- Witness for `image_size_eq_of_no_overflow` at a 2 by 3 image of depth
24. -/
theorem image_size_eq_of_no_overflow_witness :
    Image.size ⟨2, 3, 24, ImageType.Unknown, none⟩ =
      some (2 * 3 * (24 / 8)) :=
  image_size_eq_of_no_overflow ⟨2, 3, 24, ImageType.Unknown, none⟩
    (by decide) (by decide) (by decide) (by decide) (by decide)

/-- C5 counterexample: the five-argument `Image` constructor called with
depth argument 9 yields an image whose depth is neither 8 nor 24. -/
theorem image_depth_counterexample :
    ¬ ((Image.mk5 1 1 9 ImageType.Unknown none).depth = 8 ∨
       (Image.mk5 1 1 9 ImageType.Unknown none).depth = 24) := by
  decide

/-- C5 amended: the default `Image` constructor yields depth 24 (one of 8
and 24), but the five-argument constructor stores its `uint8_t` depth
argument verbatim (reduced modulo 2^8), so the depth of a constructible
image need not be 8 or 24. -/
theorem image_depth_constructors :
    (Image.mkDefault.depth = 8 ∨ Image.mkDefault.depth = 24) ∧
    ∀ (w h d : Nat) (t : ImageType) (dat : Option Buffer),
      (Image.mk5 w h d t dat).depth = d % 2 ^ 8 :=
  ⟨Or.inr rfl, fun _ _ _ _ _ => rfl⟩

/-- C6 counterexample: the five-argument `BoundingBox` constructor called
with confidence argument 2.0 yields a bounding box whose confidence is
outside [0, 1]. -/
theorem boundingBox_confidence_counterexample :
    ¬ (0 ≤ (BoundingBox.mk5 0 0 0 0 2).confidence ∧
       (BoundingBox.mk5 0 0 0 0 2).confidence ≤ 1) := by
  intro hc
  exact absurd hc.2 (by norm_num [BoundingBox.mk5])

/-- C6 amended: the default `BoundingBox` constructor yields confidence 0,
which lies in [0, 1], but the five-argument constructor stores its
confidence argument verbatim, so the confidence of a constructible bounding
box lies in [0, 1] only when the argument does. -/
theorem boundingBox_confidence_constructors :
    (0 ≤ BoundingBox.mkDefault.confidence ∧
      BoundingBox.mkDefault.confidence ≤ 1) ∧
    ∀ (x y w h : Nat) (c : Rat),
      (BoundingBox.mk5 x y w h c).confidence = c :=
  ⟨⟨by norm_num [BoundingBox.mkDefault], by norm_num [BoundingBox.mkDefault]⟩,
    fun _ _ _ _ _ => rfl⟩

/-- C7: any candidate list satisfying the `identifyTemplate` contract for
list length `k` has at most `k` entries, and its similarity scores are
non-increasing even after restricting to the assigned entries. -/
theorem identifyTemplate_contract_sound (k : Nat) (cl : List Candidate)
    (hc : IdentifyTemplateContract k cl) :
    cl.length ≤ k ∧
    (cl.filter (fun c => c.isAssigned)).Chain'
      (fun a b => b.similarityScore ≤ a.similarityScore) := by
  obtain ⟨hlen, hchain⟩ := hc
  refine ⟨hlen.le, ?_⟩
  haveI : IsTrans Candidate
      (fun a b => b.similarityScore ≤ a.similarityScore) :=
    ⟨fun _ _ _ hab hbc => le_trans hbc hab⟩
  rw [List.chain'_iff_pairwise] at hchain
  exact (hchain.sublist (List.filter_sublist cl)).chain'

/-- Witness for `identifyTemplate_contract_sound` on a concrete two-entry
candidate list satisfying the contract for `k = 2`. -/
theorem identifyTemplate_contract_sound_witness :
    ([⟨true, "a", 5⟩, ⟨false, "b", 3⟩] : List Candidate).length ≤ 2 :=
  (identifyTemplate_contract_sound 2
      [⟨true, "a", 5⟩, ⟨false, "b", 3⟩]
      ⟨rfl, List.chain'_cons.mpr
        ⟨by norm_num, List.chain'_singleton _⟩⟩).1

/-- C9: `addBoundingBox` changes neither the template handle nor the
reported template size, and `resizeTemplate` does not change the
bounding-box list, for every state and argument. -/
theorem frame_conditions (s : TattooRep) (h : Heap) (bb : BoundingBox)
    (n : Nat) :
    (s.addBoundingBox bb).getTattooTemplatePtr = s.getTattooTemplatePtr ∧
    (s.addBoundingBox bb).getTemplateSize = s.getTemplateSize ∧
    (s.resizeTemplate h n).1.getBoundingBoxes = s.getBoundingBoxes := by
  refine ⟨rfl, rfl, ?_⟩
  by_cases hn : 0 < n <;>
    simp [TattooRep.resizeTemplate, hn, TattooRep.getBoundingBoxes]

end TattE
